import Mathlib

/-!
Verification development for the Wizzy bot conversation-memory and
context-assembly layer (src/models.py, src/persistent_memory.py, src/app.py).

The relational tables of src/models.py are embedded as Lean lists of rows;
timestamps are integers (seconds); SQLAlchemy sessions and commits are
embedded by explicit state passing, with Bool oracle parameters standing for
"this persistence step succeeded" so that the except/rollback branches of the
source are part of the model.
-/

namespace Wizzy

/-- Row of the chat_history table (src/models.py, class ChatHistory). -/
structure ChatRow where
  session_id : String
  message_type : String
  content : String
  timestamp : Int
deriving DecidableEq

/-- Row of the document_contexts table (src/models.py, class DocumentContext). -/
structure DocRow where
  session_id : String
  filename : String
  content : String
  summary : String
  file_type : String
  file_size : Int
  uploaded_at : Int
deriving DecidableEq

/-- Row of the user_sessions table (src/models.py, class UserSession). -/
structure SessionRow where
  session_id : String
  user_name : Option String
  first_interaction : Int
  last_interaction : Int
  total_messages : Int
deriving DecidableEq

/-- In-memory langchain message: HumanMessage, AIMessage, or any other
BaseMessage (collapsed to the system constructor, matching the catch-all
branch of add_message in src/persistent_memory.py). -/
inductive BaseMessage where
  | human (content : String)
  | ai (content : String)
  | system (content : String)
deriving DecidableEq

/-- One day in seconds: the message age horizon timedelta(days=1). -/
def oneDay : Int := 86400

/-- Descending-timestamp order used by order_by(desc(ChatHistory.timestamp)). -/
def tsGe (a b : ChatRow) : Prop := b.timestamp ≤ a.timestamp

instance : DecidableRel tsGe := fun a b =>
  inferInstanceAs (Decidable (b.timestamp ≤ a.timestamp))

instance : IsTotal ChatRow tsGe := ⟨fun a b => le_total b.timestamp a.timestamp⟩

instance : IsTrans ChatRow tsGe := ⟨fun _ _ _ hab hbc => le_trans hbc hab⟩

/-- Rows of chat_history matching filter(ChatHistory.session_id == sid). -/
def queryRows (sid : String) (db : List ChatRow) : List ChatRow :=
  db.filter (fun r => r.session_id == sid)

/-- Session rows ordered by descending timestamp, as in
order_by(desc(ChatHistory.timestamp)) of _load_messages. -/
def sortedDesc (sid : String) (db : List ChatRow) : List ChatRow :=
  List.insertionSort tsGe (queryRows sid db)

/-- Rows selected by _load_messages: latest 20 by timestamp, then
chat_records.reverse() for chronological (oldest first) order. -/
def selectRows (sid : String) (db : List ChatRow) : List ChatRow :=
  ((sortedDesc sid db).take 20).reverse

/-- Conversion of a stored row to an in-memory message in _load_messages:
rows whose message_type is neither human nor ai are skipped (continue). -/
def rowToMessage (r : ChatRow) : Option BaseMessage :=
  if r.message_type == "human" then some (BaseMessage.human r.content)
  else if r.message_type == "ai" then some (BaseMessage.ai r.content)
  else none

/-- DatabaseChatMessageHistory._load_messages: on a database error the except
branch yields the empty list; otherwise the latest 20 rows, oldest first,
converted and with unknown message types skipped. -/
def load_messages (ok : Bool) (sid : String) (db : List ChatRow) : List BaseMessage :=
  if ok then (selectRows sid db).filterMap rowToMessage else []

/-- Per-instance state of DatabaseChatMessageHistory: the session key and the
process-local message cache self._messages (None until first load). -/
structure ChatHistoryObj where
  session_id : String
  cache : Option (List BaseMessage)
deriving DecidableEq

/-- Message type string chosen by add_message: human, ai, else system. -/
def messageTypeOf : BaseMessage → String
  | BaseMessage.human _ => "human"
  | BaseMessage.ai _ => "ai"
  | BaseMessage.system _ => "system"

/-- Content carried by a message. -/
def contentOf : BaseMessage → String
  | BaseMessage.human c => c
  | BaseMessage.ai c => c
  | BaseMessage.system c => c

/-- DatabaseChatMessageHistory._cleanup_old_messages: delete this session's
rows with timestamp earlier than one day before now, then commit. The delete
and commit run in their own try block whose except branch swallows the error,
so on failure (ok = false) the table is unchanged and control continues. -/
def cleanup_old_messages (sid : String) (db : List ChatRow) (now : Int)
    (ok : Bool) : List ChatRow :=
  if ok then
    db.filter (fun r => !(r.session_id == sid && decide (r.timestamp < now - oneDay)))
  else db

/-- Python truthiness of an optional string: None and the empty string are
falsy (the source tests "if user_name and not user_session.user_name"). -/
def pyTruthy : Option String → Bool
  | none => false
  | some s => !(s == "")

/-- First-match in-place update done by _update_user_session after
query(...).first(): set last_interaction to now and add one to
total_messages on the first row whose session_id matches. -/
def touchFirst (sid : String) (now : Int) : List SessionRow → List SessionRow
  | [] => []
  | r :: rest =>
    if r.session_id == sid then
      { r with last_interaction := now, total_messages := r.total_messages + 1 } :: rest
    else r :: touchFirst sid now rest

/-- DatabaseChatMessageHistory._update_user_session: update the matching user
session row (if any) and commit; its except branch swallows any error, so on
failure (ok = false) the table is unchanged and nothing is reported. -/
def update_user_session (sessions : List SessionRow) (sid : String) (now : Int)
    (ok : Bool) : List SessionRow :=
  if ok then touchFirst sid now sessions else sessions

/-- Cache truncation in add_message: keep only the latest 20 entries. -/
def truncateCache (l : List BaseMessage) : List BaseMessage :=
  if l.length > 20 then l.drop (l.length - 20) else l

/-- DatabaseChatMessageHistory.add_message. Steps, as in the source: run the
age cleanup (which commits on its own), build the ChatHistory row with
timestamp utcnow, add and commit it (insertOk = false means this commit
raised: the outer except logs and rolls back only the uncommitted insert,
leaving the cleanup in place, and the function still returns normally),
then append to the cache and truncate it to 20, then run
_update_user_session (registryOk; its failure is swallowed inside). -/
def add_message (h : ChatHistoryObj) (chat : List ChatRow)
    (sessions : List SessionRow) (msg : BaseMessage) (now : Int)
    (cleanupOk insertOk registryOk : Bool) :
    ChatHistoryObj × List ChatRow × List SessionRow :=
  let chat1 := cleanup_old_messages h.session_id chat now cleanupOk
  if insertOk then
    let newRow : ChatRow := ⟨h.session_id, messageTypeOf msg, contentOf msg, now⟩
    let cache1 := match h.cache with
      | some l => some (truncateCache (l ++ [msg]))
      | none => none
    (⟨h.session_id, cache1⟩, chat1 ++ [newRow],
      update_user_session sessions h.session_id now registryOk)
  else
    (h, chat1, sessions)

/-- UserSessionManager.create_or_update_session: query the row by session_id;
if present, set last_interaction to now and set user_name only when the given
name is truthy and the stored one is falsy; if absent, insert a fresh row
with both interaction times now and total_messages 0; commit. On failure
(ok = false) everything is rolled back. -/
def setNameFirst (sid : String) (uname : Option String) (now : Int) :
    List SessionRow → List SessionRow
  | [] => []
  | r :: rest =>
    if r.session_id == sid then
      { r with last_interaction := now,
               user_name := if pyTruthy uname && !(pyTruthy r.user_name)
                            then uname else r.user_name } :: rest
    else r :: setNameFirst sid uname now rest

/-- UserSessionManager.create_or_update_session (see setNameFirst). -/
def create_or_update_session (sessions : List SessionRow) (sid : String)
    (uname : Option String) (now : Int) (ok : Bool) : List SessionRow :=
  if ok then
    match sessions.find? (fun r => r.session_id == sid) with
    | some _ => setNameFirst sid uname now sessions
    | none => sessions ++ [⟨sid, uname, now, now, 0⟩]
  else sessions

/-- DatabaseDocumentManager.store_document: delete every document row of the
session, insert the new one, and commit — one transaction, so on any failure
(ok = false) the rollback restores the table unchanged and False is
returned. -/
def store_document (docs : List DocRow) (sid filename content summary
    file_type : String) (file_size now : Int) (ok : Bool) :
    List DocRow × Bool :=
  if ok then
    ((docs.filter (fun d => !(d.session_id == sid)))
       ++ [⟨sid, filename, content, summary, file_type, file_size, now⟩], true)
  else (docs, false)

/-- DatabaseDocumentManager.get_document: first row of the session, or none. -/
def get_document (sid : String) (docs : List DocRow) : Option DocRow :=
  docs.find? (fun d => d.session_id == sid)

/-- Module-level cleanup_old_documents (success path): delete all documents,
across sessions, uploaded before now minus days, commit, and return the
deleted count; on failure (ok = false) roll back and return 0. -/
def cleanup_old_documents (docs : List DocRow) (days now : Int) (ok : Bool) :
    List DocRow × Nat :=
  if ok then
    (docs.filter (fun d => !(decide (d.uploaded_at < now - days * oneDay))),
     (docs.filter (fun d => decide (d.uploaded_at < now - days * oneDay))).length)
  else (docs, 0)

/-- Entry of WizzyBot.document_contexts (src/app.py, process_document): the
per-chat in-memory document record consulted by create_system_message. -/
structure DocInfo where
  filename : String
  content : String
  summary : String
  uploaded_at : String
deriving DecidableEq

/-- Dictionary lookup chat_id in self.document_contexts /
self.document_contexts[chat_id]. -/
def lookupCtx (cid : String) (ctxs : List (String × DocInfo)) : Option DocInfo :=
  (ctxs.find? (fun p => p.1 == cid)).map Prod.snd

/-- Persona preamble plus user name and timestamp: the base_message f-string
of WizzyBot.create_system_message. -/
def baseMessage (user_name current_time : String) : String :=
  "You are a helpful assistant called Wizzy.\nRespond in a natural funny tone.\nBe sarcastic when required.\nDon\x27t give very long messages.\n\nYou are currently talking to "
    ++ user_name
    ++ ".\n\nThe current date and time is "
    ++ current_time

/-- Document block appended by create_system_message when a document context
is available for the chat. -/
def docBlock (d : DocInfo) : String :=
  "\n\n## Document Context Available:\nThe user has uploaded a document: "
    ++ d.filename
    ++ "\nYou can reference and answer questions about this document.\nDocument summary: "
    ++ d.summary

/-- Python truthiness of the optional chat_id argument (default None). -/
def pyTruthyOpt : Option String → Bool
  | none => false
  | some s => !(s == "")

/-- Membership test chat_id in self.document_contexts (false when chat_id is
None, mirroring that the guard is short-circuited). -/
def hasKey (cid : Option String) (ctxs : List (String × DocInfo)) : Bool :=
  match cid with
  | none => false
  | some c => (lookupCtx c ctxs).isSome

/-- WizzyBot.create_system_message: build the base message, then append the
document block only when "chat_id and chat_id in self.document_contexts". -/
def create_system_message (user_name : String) (chat_id : Option String)
    (ctxs : List (String × DocInfo)) (current_time : String) : String :=
  let base := baseMessage user_name current_time
  if pyTruthyOpt chat_id && hasKey chat_id ctxs then
    match chat_id with
    | some cid =>
      match lookupCtx cid ctxs with
      | some d => base ++ docBlock d
      | none => base
    | none => base
  else base

/-- Inbound Telegram message as read by WizzyBot.process_webhook: the chat id
and which of the payload kinds are present. -/
structure TgMessage where
  chat_id : Option Int
  voice : Option String
  photo : Option String
  document : Option String
  text : Option String
deriving DecidableEq

/-- Outbound effect of one webhook event: a synthesized-audio send, a plain
text send, or no send at all. -/
inductive Outbound where
  | audioSent (chat : Int)
  | textSent (chat : Int) (body : String)
  | silent
deriving DecidableEq

/-- WizzyBot.should_respond_with_audio: true iff the voice key is present. -/
def should_respond_with_audio (m : TgMessage) : Bool :=
  m.voice.isSome

/-- WizzyBot.send_audio_response: synthesize speech and send it; if synthesis
fails (generate_speech returns None) or the audio send raises, fall back to
send_text_response with the same text. speechOk = true means the synthesis
and audio send both succeeded. -/
def send_audio_response (chat : Int) (t : String) (speechOk : Bool) : Outbound :=
  if speechOk then Outbound.audioSent chat else Outbound.textSent chat t

/-- WizzyBot.process_webhook dispatch: return early without a chat id; voice
goes to the audio response path; photo, document and text go to the plain
text path (the text branch re-checks should_respond_with_audio, which is
always false there since the voice branch was not taken). The response body
itself comes from external AI calls and is abstracted as resp. -/
def process_webhook (m : TgMessage) (resp : String) (speechOk : Bool) : Outbound :=
  match m.chat_id with
  | none => Outbound.silent
  | some cid =>
    if m.voice.isSome then send_audio_response cid resp speechOk
    else if m.photo.isSome then Outbound.textSent cid resp
    else if m.document.isSome then Outbound.textSent cid resp
    else if m.text.isSome then
      if should_respond_with_audio m then send_audio_response cid resp speechOk
      else Outbound.textSent cid resp
    else Outbound.silent

/-- Which local names of cleanup_all_old_messages are bound: db_manager and
session are assigned inside the try block, so they are unbound when the
assignment raising the exception had not yet run. -/
structure PyEnv where
  manager_bound : Bool
  session_bound : Bool
deriving DecidableEq

/-- Result of the try body before except/finally handling. -/
inductive TryResult where
  | ok (count : Nat)
  | raised (err : String)
deriving DecidableEq

/-- Number of chat rows older than one day across all sessions, the count
returned by the global delete of cleanup_all_old_messages. -/
def expiredCount (db : List ChatRow) (now : Int) : Nat :=
  (db.filter (fun r => decide (r.timestamp < now - oneDay))).length

/-- Try body of cleanup_all_old_messages: get_database_manager (which also
touches the datastore through create_tables, managerOk), then get_session
(sessionOk), then the global delete and commit (queryOk). -/
def cleanupAllTryBody (managerOk sessionOk queryOk : Bool) (db : List ChatRow)
    (now : Int) : PyEnv × TryResult :=
  if !managerOk then (⟨false, false⟩, TryResult.raised "DatabaseError")
  else if !sessionOk then (⟨true, false⟩, TryResult.raised "DatabaseError")
  else if !queryOk then (⟨true, true⟩, TryResult.raised "DatabaseError")
  else (⟨true, true⟩, TryResult.ok (expiredCount db now))

/-- Except branch of cleanup_all_old_messages: it logs and runs
session.rollback() then return 0 — but the name session is unbound when
acquisition itself raised, so the handler raises UnboundLocalError. -/
def cleanupAllExcept (env : PyEnv) (r : TryResult) : TryResult :=
  match r with
  | TryResult.ok c => TryResult.ok c
  | TryResult.raised _ =>
    if env.session_bound then TryResult.ok 0
    else TryResult.raised "UnboundLocalError"

/-- Final outcome of a run: either the function returned a count, or it
raised; sessionClosed records whether db_manager.close_session(session) in
the finally block actually ran to completion. -/
inductive RunOutcome where
  | returned (count : Nat) (sessionClosed : Bool)
  | raised (err : String) (sessionClosed : Bool)
deriving DecidableEq

/-- Finally block of cleanup_all_old_messages: db_manager.close_session
(session) closes the session when both names are bound; otherwise the
finally block itself raises UnboundLocalError, replacing any pending
result. -/
def cleanupAllFinally (env : PyEnv) (r : TryResult) : RunOutcome :=
  if env.manager_bound && env.session_bound then
    match r with
    | TryResult.ok c => RunOutcome.returned c true
    | TryResult.raised e => RunOutcome.raised e true
  else RunOutcome.raised "UnboundLocalError" false

/-- Whole-function model of cleanup_all_old_messages in
src/persistent_memory.py: try body, except branch, finally block. -/
def cleanup_all_old_messages_run (managerOk sessionOk queryOk : Bool)
    (db : List ChatRow) (now : Int) : RunOutcome :=
  let er := cleanupAllTryBody managerOk sessionOk queryOk db now
  cleanupAllFinally er.1 (cleanupAllExcept er.1 er.2)

/-! Helper lemmas shared by the claim theorems. -/

lemma length_load_le (sid : String) (db : List ChatRow) :
    (load_messages true sid db).length ≤ 20 := by
  have h1 : (load_messages true sid db).length ≤ (selectRows sid db).length := by
    simpa [load_messages] using List.length_filterMap_le rowToMessage (selectRows sid db)
  have h2 : (selectRows sid db).length ≤ 20 := by
    simp only [selectRows, List.length_reverse, List.length_take]
    exact min_le_left _ _
  exact le_trans h1 h2

lemma selectRows_sorted (sid : String) (db : List ChatRow) :
    List.Sorted (fun a b : ChatRow => a.timestamp ≤ b.timestamp) (selectRows sid db) := by
  have h1 : List.Pairwise tsGe (sortedDesc sid db) :=
    List.sorted_insertionSort tsGe (queryRows sid db)
  have h2 : List.Pairwise tsGe ((sortedDesc sid db).take 20) :=
    List.Pairwise.sublist (List.take_sublist 20 _) h1
  exact List.pairwise_reverse.mpr h2

lemma selectRows_dominates (sid : String) (db : List ChatRow) :
    ∀ r₁ ∈ queryRows sid db, r₁ ∉ selectRows sid db →
      ∀ r₂ ∈ selectRows sid db, r₁.timestamp ≤ r₂.timestamp := by
  intro r₁ hq hns r₂ hr
  have hperm := List.perm_insertionSort tsGe (queryRows sid db)
  have hsorted : List.Pairwise tsGe (sortedDesc sid db) :=
    List.sorted_insertionSort tsGe (queryRows sid db)
  have h1 : r₁ ∈ sortedDesc sid db := hperm.mem_iff.mpr hq
  have hr20 : r₂ ∈ (sortedDesc sid db).take 20 := List.mem_reverse.mp hr
  have hns20 : r₁ ∉ (sortedDesc sid db).take 20 := fun h => hns (List.mem_reverse.mpr h)
  have hsplit := List.take_append_drop 20 (sortedDesc sid db)
  have h2 : r₁ ∈ (sortedDesc sid db).take 20 ++ (sortedDesc sid db).drop 20 := by
    rw [hsplit]; exact h1
  have h3 : r₁ ∈ (sortedDesc sid db).drop 20 :=
    (List.mem_append.mp h2).resolve_left hns20
  have hpw : List.Pairwise tsGe
      ((sortedDesc sid db).take 20 ++ (sortedDesc sid db).drop 20) := by
    rw [hsplit]; exact hsorted
  exact (List.pairwise_append.mp hpw).2.2 r₂ hr20 r₁ h3

lemma selectRows_dominates_bool (sid : String) (db : List ChatRow) :
    ((queryRows sid db).all (fun r₁ =>
        decide (r₁ ∈ selectRows sid db)
        || (selectRows sid db).all (fun r₂ =>
              decide (r₁.timestamp ≤ r₂.timestamp)))) = true := by
  simp only [List.all_eq_true, Bool.or_eq_true, decide_eq_true_eq]
  intro r₁ hq
  by_cases h : r₁ ∈ selectRows sid db
  · exact Or.inl h
  · exact Or.inr (fun r₂ hr => selectRows_dominates sid db r₁ hq h r₂ hr)

/-- C1 (amended): get_history, embedded as load_messages on a successful
read, returns at most 20 messages; the selected rows are the session rows
with the largest timestamps, ordered oldest first in non-decreasing
timestamp order. No age filtering happens at read time (see the
counterexample theorem load_messages_returns_expired). -/
theorem get_history_window_spec :
    ∀ (sid : String) (db : List ChatRow),
      (load_messages true sid db).length ≤ 20
      ∧ List.Sorted (fun a b : ChatRow => a.timestamp ≤ b.timestamp) (selectRows sid db)
      ∧ ((queryRows sid db).all (fun r₁ =>
            decide (r₁ ∈ selectRows sid db)
            || (selectRows sid db).all (fun r₂ =>
                  decide (r₁.timestamp ≤ r₂.timestamp)))) = true :=
  fun sid db =>
    ⟨length_load_le sid db, selectRows_sorted sid db, selectRows_dominates_bool sid db⟩

/-- C1 counterexample: a read of session s at a moment two days after the
single stored message was written still returns that message, although its
timestamp (0) is strictly older than the one-day age horizon before now
(2 * oneDay). The query of _load_messages has no timestamp filter, so the
claim that get_history includes only messages no older than the age horizon
is false. -/
theorem load_messages_returns_expired :
    load_messages true "s" [⟨"s", "human", "old", 0⟩] = [BaseMessage.human "old"]
    ∧ ((0 : Int) < 2 * oneDay - oneDay) := by
  decide

/-- Test whether a message is a chat-visible role, human or ai. -/
def isChatMessage : BaseMessage → Bool
  | BaseMessage.human _ => true
  | BaseMessage.ai _ => true
  | BaseMessage.system _ => false

lemma rowToMessage_isChat (r : ChatRow) (m : BaseMessage)
    (h : rowToMessage r = some m) : isChatMessage m = true := by
  unfold rowToMessage at h
  split at h
  · cases h; rfl
  · split at h
    · cases h; rfl
    · exact Option.noConfusion h

lemma load_all_chat (sid : String) (db : List ChatRow) :
    (load_messages true sid db).all isChatMessage = true := by
  simp only [load_messages, if_pos, List.all_eq_true]
  intro m hm
  obtain ⟨r, _, hr⟩ := List.mem_filterMap.mp hm
  exact rowToMessage_isChat r m hr

lemma system_row_skipped (sid c : String) (now : Int) :
    load_messages true sid [⟨sid, "system", c, now⟩] = [] := by
  have hq : queryRows sid [(⟨sid, "system", c, now⟩ : ChatRow)]
      = [⟨sid, "system", c, now⟩] := by
    simp [queryRows]
  have hrm : rowToMessage ⟨sid, "system", c, now⟩ = none := rfl
  simp [load_messages, selectRows, sortedDesc, hq, List.insertionSort,
    List.orderedInsert, hrm]

set_option maxRecDepth 10000

/-- C10: every message sequence returned by a history read contains only
human or ai messages; a message that is neither is stored by add_message
with type system, and such a row is silently skipped on load, so a read can
return fewer than 20 messages even when 20 rows match the query (the
concrete database of 20 system rows matches 20 rows yet loads to the empty
sequence). -/
theorem history_read_roles_spec :
    ∀ (sid c : String) (db : List ChatRow) (now : Int),
      ((load_messages true sid db).all isChatMessage = true)
      ∧ ((add_message ⟨sid, none⟩ [] [] (BaseMessage.system c) now true true true).2.1
          = [⟨sid, "system", c, now⟩])
      ∧ (load_messages true sid [⟨sid, "system", c, now⟩] = [])
      ∧ ((queryRows "s" (List.replicate 20 ⟨"s", "system", "x", 5⟩)).length = 20)
      ∧ (load_messages true "s" (List.replicate 20 ⟨"s", "system", "x", 5⟩) = []) := by
  intro sid c db now
  refine ⟨load_all_chat sid db, rfl, system_row_skipped sid c now, by decide, by decide⟩

/-- C2 counterexample: a concrete run of add_message in which the message
insert commits (insertOk = true) but the registry update fails
(registryOk = false, swallowed inside _update_user_session). The final state
stores the new chat row while the user session row keeps last_interaction 0
and total_messages 5 — the partial state the claim says is unreachable —
and the call completes normally, reporting nothing to the caller. -/
theorem append_message_partial_commit :
    add_message ⟨"s", none⟩ [] [⟨"s", some "Bob", 0, 0, 5⟩]
        (BaseMessage.human "hi") 10 true true false
      = (⟨"s", none⟩, [⟨"s", "human", "hi", 10⟩], [⟨"s", some "Bob", 0, 0, 5⟩]) := by
  decide

/-- C2 (amended): the side effects of add_message are not atomic. The insert
commits on its own: when the registry update then fails, the chat table has
gained the new row while the session table is unchanged; when the insert
commit itself fails, it alone is rolled back while the separately committed
cleanup survives; in both cases the function returns normally, so no error
reaches the caller. -/
theorem append_message_commit_split :
    ∀ (h : ChatHistoryObj) (chat : List ChatRow) (sessions : List SessionRow)
      (msg : BaseMessage) (now : Int),
      ((add_message h chat sessions msg now true true false).2.1
        = cleanup_old_messages h.session_id chat now true
            ++ [⟨h.session_id, messageTypeOf msg, contentOf msg, now⟩])
      ∧ ((add_message h chat sessions msg now true true false).2.2 = sessions)
      ∧ ((add_message h chat sessions msg now true false false).2.1
        = cleanup_old_messages h.session_id chat now true)
      ∧ ((add_message h chat sessions msg now true false false).2.2 = sessions) := by
  intro h chat sessions msg now
  exact ⟨rfl, rfl, rfl, rfl⟩

lemma cleanup_keeps_young (sid : String) (chat : List ChatRow) (now : Int) :
    ((cleanup_old_messages sid chat now true).filter
        (fun r => r.session_id == sid)).all
      (fun r => !decide (r.timestamp < now - oneDay)) = true := by
  simp only [cleanup_old_messages, if_pos, List.all_eq_true]
  intro r hr
  rw [List.mem_filter] at hr
  obtain ⟨hr1, hsid⟩ := hr
  rw [List.mem_filter] at hr1
  obtain ⟨_, hkeep⟩ := hr1
  simp only [hsid, Bool.true_and] at hkeep
  exact hkeep

/-- C4 counterexample: a session whose cache holds the message written at
timestamp 0; a new write at now = 3 * oneDay (so the old message is well past
the one-day horizon) deletes the expired row from the store but appends to
the cache without any age check, leaving the expired message present in the
cache after the write. The claim says it is absent from both. -/
theorem append_message_cache_keeps_expired :
    (add_message ⟨"s", some [BaseMessage.human "old"]⟩ [⟨"s", "human", "old", 0⟩]
        [] (BaseMessage.human "new") (3 * oneDay) true true true
      = (⟨"s", some [BaseMessage.human "old", BaseMessage.human "new"]⟩,
         [⟨"s", "human", "new", 3 * oneDay⟩], []))
    ∧ ((0 : Int) < 3 * oneDay - oneDay) := by
  decide

/-- C4 (amended): every add_message call whose cleanup step succeeds leaves
no row of the session older than the one-day horizon in the chat table, so
expired messages are absent from any subsequent store-backed read; the cache,
however, is only appended to and truncated to the latest 20 entries — it is
never filtered by age. -/
theorem append_message_eviction_spec :
    ∀ (h : ChatHistoryObj) (chat : List ChatRow) (sessions : List SessionRow)
      (msg : BaseMessage) (now : Int) (insertOk registryOk : Bool),
      ((((add_message h chat sessions msg now true insertOk registryOk).2.1).filter
          (fun r => r.session_id == h.session_id)).all
        (fun r => !decide (r.timestamp < now - oneDay)) = true)
      ∧ ((add_message h chat sessions msg now true insertOk registryOk).1.cache
          = if insertOk then h.cache.map (fun l => truncateCache (l ++ [msg]))
            else h.cache) := by
  intro h chat sessions msg now insertOk registryOk
  cases insertOk with
  | false => exact ⟨cleanup_keeps_young h.session_id chat now, rfl⟩
  | true =>
    constructor
    · have hchat : (add_message h chat sessions msg now true true registryOk).2.1
          = cleanup_old_messages h.session_id chat now true
              ++ [⟨h.session_id, messageTypeOf msg, contentOf msg, now⟩] := rfl
      rw [hchat, List.filter_append, List.all_append, Bool.and_eq_true]
      refine ⟨cleanup_keeps_young h.session_id chat now, ?_⟩
      have hage : (!decide (now < now - oneDay)) = true := by
        simp only [Bool.not_eq_true', decide_eq_false_iff_not, oneDay]
        omega
      simp [List.filter_cons, hage]
    · cases hc : h.cache <;> simp [add_message, hc]

lemma cou_cons (r : SessionRow) (rest : List SessionRow) (sid : String)
    (uname : Option String) (now : Int) :
    create_or_update_session (r :: rest) sid uname now true
      = if r.session_id == sid
        then { r with last_interaction := now,
                      user_name := if pyTruthy uname && !(pyTruthy r.user_name)
                                   then uname else r.user_name } :: rest
        else r :: create_or_update_session rest sid uname now true := by
  by_cases hm : (r.session_id == sid) = true
  · simp [create_or_update_session, List.find?_cons_of_pos _ hm, setNameFirst, hm]
  · rw [Bool.not_eq_true] at hm
    rw [create_or_update_session, if_pos rfl, List.find?_cons_of_neg _ (by simp [hm])]
    cases hfind : rest.find? (fun q => q.session_id == sid) <;>
      simp [create_or_update_session, hfind, setNameFirst, hm]

lemma cou_counts (sessions : List SessionRow) (sid : String)
    (uname : Option String) (now : Int) :
    (create_or_update_session sessions sid uname now true).map SessionRow.total_messages
      = sessions.map SessionRow.total_messages
        ++ (if (sessions.find? (fun q => q.session_id == sid)).isSome
            then [] else [0]) := by
  induction sessions with
  | nil => simp [create_or_update_session]
  | cons r rest ih =>
    rw [cou_cons]
    by_cases hm : (r.session_id == sid) = true
    · simp [hm, List.find?_cons_of_pos _ hm]
    · rw [Bool.not_eq_true] at hm
      have hfind : List.find? (fun q => q.session_id == sid) (r :: rest)
          = List.find? (fun q => q.session_id == sid) rest :=
        List.find?_cons_of_neg rest (by simp [hm])
      simp [hm, hfind, ih]

/-- C5 counterexample: touching an existing session row (count 7) with a
name updates last_interaction and sets the still-unset user_name but leaves
total_messages at 7 — create_or_update_session never increments the count,
contradicting the claim that the touch operation increments it. -/
theorem touch_does_not_increment_count :
    create_or_update_session [⟨"s", none, 0, 0, 7⟩] "s" (some "Bob") 10 true
      = [⟨"s", some "Bob", 0, 10, 7⟩] := by
  decide

/-- C5 (amended): create_or_update_session creates an absent session row
with first_interaction = last_interaction = now and total_messages 0, and
for a present row updates last_interaction and sets user_name only when the
given name is truthy and the stored one is not (first-seen name wins); it
never changes any message count. The count is incremented only by the
separate per-message registry update (_update_user_session, embedded as
update_user_session), which does nothing when the row is absent. -/
theorem touch_session_spec :
    ∀ (sessions : List SessionRow) (r : SessionRow) (rest : List SessionRow)
      (sid : String) (uname : Option String) (now : Int),
      (create_or_update_session [] sid uname now true = [⟨sid, uname, now, now, 0⟩])
      ∧ (create_or_update_session (r :: rest) sid uname now true
          = if r.session_id == sid
            then { r with last_interaction := now,
                          user_name := if pyTruthy uname && !(pyTruthy r.user_name)
                                       then uname else r.user_name } :: rest
            else r :: create_or_update_session rest sid uname now true)
      ∧ ((create_or_update_session sessions sid uname now true).map
            SessionRow.total_messages
          = sessions.map SessionRow.total_messages
            ++ (if (sessions.find? (fun q => q.session_id == sid)).isSome
                then [] else [0]))
      ∧ (update_user_session [] sid now true = [])
      ∧ (update_user_session (r :: rest) sid now true
          = if r.session_id == sid
            then { r with last_interaction := now,
                          total_messages := r.total_messages + 1 } :: rest
            else r :: update_user_session rest sid now true) := by
  intro sessions r rest sid uname now
  exact ⟨rfl, cou_cons r rest sid uname now, cou_counts sessions sid uname now,
    rfl, rfl⟩

lemma filter_ne_then_eq (l : List DocRow) (sid : String) :
    (l.filter (fun d => !(d.session_id == sid))).filter
      (fun d => d.session_id == sid) = [] := by
  induction l with
  | nil => rfl
  | cons d rest ih => cases hd : d.session_id == sid <;> simp [List.filter_cons, hd, ih]

lemma find?_eq_on_filter_ne (l : List DocRow) (sid : String) :
    (l.filter (fun d => !(d.session_id == sid))).find?
      (fun d => d.session_id == sid) = none := by
  rw [List.find?_eq_none]
  intro d hd
  rw [List.mem_filter] at hd
  simp only [Bool.not_eq_true'] at hd
  simp [hd.2]

/-- C3: store_document is a delete-then-insert inside one transaction. After
two successful stores for the same session, the documents of that session
are exactly the one built from the second call, and get_document returns it;
a failed store returns false and leaves the table exactly as it was, so any
prior document is still attached. -/
theorem store_document_replace_spec :
    ∀ (docs : List DocRow) (sid f₁ c₁ s₁ t₁ : String) (z₁ n₁ : Int)
      (f₂ c₂ s₂ t₂ : String) (z₂ n₂ : Int),
      (((store_document (store_document docs sid f₁ c₁ s₁ t₁ z₁ n₁ true).1
            sid f₂ c₂ s₂ t₂ z₂ n₂ true).1.filter (fun d => d.session_id == sid))
          = [⟨sid, f₂, c₂, s₂, t₂, z₂, n₂⟩])
      ∧ (get_document sid (store_document (store_document docs sid f₁ c₁ s₁ t₁ z₁ n₁ true).1
            sid f₂ c₂ s₂ t₂ z₂ n₂ true).1 = some ⟨sid, f₂, c₂, s₂, t₂, z₂, n₂⟩)
      ∧ ((store_document docs sid f₁ c₁ s₁ t₁ z₁ n₁ true).2 = true)
      ∧ (store_document docs sid f₁ c₁ s₁ t₁ z₁ n₁ false = (docs, false)) := by
  intro docs sid f₁ c₁ s₁ t₁ z₁ n₁ f₂ c₂ s₂ t₂ z₂ n₂
  refine ⟨?_, ?_, rfl, rfl⟩
  · simp [store_document, List.filter_append, filter_ne_then_eq]
  · simp [store_document, get_document, List.find?_append, find?_eq_on_filter_ne]

/-- C6 counterexample: with the empty string as session identifier and a
document stored under it, get_document (the dictionary lookup, embedded as
lookupCtx) returns a value, yet create_system_message emits no document
block, because the guard "chat_id and chat_id in self.document_contexts"
treats the empty chat_id as falsy. The third conjunct shows that the output
with a block would have differed. -/
theorem system_message_block_mismatch :
    (create_system_message "Bob" (some "") [("", ⟨"r.pdf", "c", "sum", "t"⟩)] "T"
      = baseMessage "Bob" "T")
    ∧ (lookupCtx "" [("", ⟨"r.pdf", "c", "sum", "t"⟩)]
      = some ⟨"r.pdf", "c", "sum", "t"⟩)
    ∧ (baseMessage "Bob" "T"
      ≠ baseMessage "Bob" "T" ++ docBlock ⟨"r.pdf", "c", "sum", "t"⟩) := by
  refine ⟨rfl, rfl, ?_⟩
  decide

/-- C6 (amended): create_system_message is a pure function of the user name,
chat identifier, document contexts, and current time. It appends the
document block exactly when the chat identifier is supplied, truthy
(non-empty), and the document lookup returns a value; the block then carries
the filename and summary of that document verbatim. -/
theorem system_message_spec :
    ∀ (un t cid : String) (ctxs : List (String × DocInfo)) (d : DocInfo),
      (create_system_message un none ctxs t = baseMessage un t)
      ∧ (create_system_message un (some cid) ctxs t
          = if cid == "" then baseMessage un t
            else match lookupCtx cid ctxs with
              | some d₀ => baseMessage un t ++ docBlock d₀
              | none => baseMessage un t)
      ∧ (∃ a b : String, docBlock d = a ++ d.filename ++ b ++ d.summary) := by
  intro un t cid ctxs d
  refine ⟨rfl, ?_, ?_⟩
  · by_cases hc : (cid == "") = true
    · simp [create_system_message, pyTruthyOpt, hc]
    · rw [Bool.not_eq_true] at hc
      cases hl : lookupCtx cid ctxs <;>
        simp [create_system_message, pyTruthyOpt, hasKey, hc, hl]
  · exact ⟨"\n\n## Document Context Available:\nThe user has uploaded a document: ",
      "\nYou can reference and answer questions about this document.\nDocument summary: ",
      rfl⟩

lemma length_filter_split {α : Type} (l : List α) (p : α → Bool) :
    (l.filter (fun a => !(p a))).length + (l.filter p).length = l.length := by
  induction l with
  | nil => rfl
  | cons a rest ih =>
    cases ha : p a <;> simp [List.filter_cons, ha] <;> omega

/-- C7: cleanup_old_documents on a successful run removes, across all
sessions, exactly the documents uploaded before now minus the horizon,
keeps every younger document in the table, and returns the number removed;
in the concrete scenario of one document uploaded 10 days ago and one 1 day
ago with a 7-day horizon, the count is 1 and only the younger document
remains retrievable through get_document. -/
theorem purge_documents_spec :
    ∀ (docs : List DocRow) (days now : Int) (d : DocRow),
      ((cleanup_old_documents docs days now true).2
        = (docs.filter (fun q => decide (q.uploaded_at < now - days * oneDay))).length)
      ∧ (d ∈ (cleanup_old_documents docs days now true).1
          ↔ (d ∈ docs ∧ ¬(d.uploaded_at < now - days * oneDay)))
      ∧ ((cleanup_old_documents docs days now true).1.length
          + (cleanup_old_documents docs days now true).2 = docs.length)
      ∧ (cleanup_old_documents
          [⟨"a", "old.pdf", "c", "s", "pdf", 1, 10 * oneDay⟩,
           ⟨"b", "new.pdf", "c2", "s2", "pdf", 1, 19 * oneDay⟩] 7 (20 * oneDay) true
          = ([⟨"b", "new.pdf", "c2", "s2", "pdf", 1, 19 * oneDay⟩], 1))
      ∧ (get_document "b" (cleanup_old_documents
          [⟨"a", "old.pdf", "c", "s", "pdf", 1, 10 * oneDay⟩,
           ⟨"b", "new.pdf", "c2", "s2", "pdf", 1, 19 * oneDay⟩] 7 (20 * oneDay) true).1
          = some ⟨"b", "new.pdf", "c2", "s2", "pdf", 1, 19 * oneDay⟩) := by
  intro docs days now d
  refine ⟨rfl, ?_, ?_, by decide, by decide⟩
  · simp [cleanup_old_documents, List.mem_filter]
  · simpa [cleanup_old_documents] using
      length_filter_split docs (fun q => decide (q.uploaded_at < now - days * oneDay))

/-- C8: for an inbound event carrying a voice payload, the outbound path is
audio synthesis then send, with a plain text fallback exactly when the
synthesis step fails; for any event without a voice payload (photo,
document, or text), the outbound response is plain text (and nothing is sent
when no recognized payload kind is present). -/
theorem webhook_routing_spec :
    ∀ (cid : Int) (v : String) (ph doc tx : Option String) (resp : String)
      (speechOk : Bool),
      (process_webhook ⟨some cid, some v, ph, doc, tx⟩ resp speechOk
        = if speechOk then Outbound.audioSent cid else Outbound.textSent cid resp)
      ∧ (process_webhook ⟨some cid, none, ph, doc, tx⟩ resp speechOk
        = if ph.isSome || doc.isSome || tx.isSome
          then Outbound.textSent cid resp else Outbound.silent) := by
  intro cid v ph doc tx resp speechOk
  constructor
  · simp [process_webhook, send_audio_response]
  · cases ph <;> cases doc <;> cases tx <;>
      simp [process_webhook, should_respond_with_audio, send_audio_response]

/-- C9: the module-level cleanup function binds db_manager and session
inside its try block, so when acquisition fails (datastore unreachable while
get_database_manager runs create_tables, or get_session raises) the finally
block calls close_session on an unbound name and itself raises
UnboundLocalError — the release step fails, contradicting the claim that
release succeeds on every exit path. When acquisition succeeds the session
is released on both the error and the normal path. -/
theorem cleanup_release_step_fails :
    (cleanup_all_old_messages_run true false true [] 0
      = RunOutcome.raised "UnboundLocalError" false)
    ∧ (cleanup_all_old_messages_run false true true [] 0
      = RunOutcome.raised "UnboundLocalError" false)
    ∧ (cleanup_all_old_messages_run true true false [] 0
      = RunOutcome.returned 0 true)
    ∧ (cleanup_all_old_messages_run true true true
        [⟨"s", "human", "x", 0⟩] (2 * oneDay)
      = RunOutcome.returned 1 true) := by
  decide

end Wizzy
